import Mathlib

/-!
Verification of the alert analysis pipeline of edge-monitor-app (the
alert-receiver service), shallowly embedded from the Go source: the
data model, the bounded record store, evidence collection, prompt
building, the provider fan-out and webhook admission.

Modelling conventions:
* timestamps are integers (nanoseconds since the Unix epoch); the Go
  zero `time.Time` value is modelled as `0`, so `IsZero` becomes `= 0`
  and `Before` becomes `<`;
* Go `float64` configuration values (temperature, confidence) are
  modelled as rationals: the code only compares them with `0` and
  copies them, operations on which agree with the rational order;
* Go maps of strings are modelled as association lists; map iteration
  order plays no role in any embedded function;
* network and JSON library calls (`InstantQuery`, `json.Marshal`,
  `json.Unmarshal`, `Complete`) are modelled as explicit oracle
  parameters returning `Except`/`Option`, since their outcomes are
  external input to the pipeline logic being verified;
* Prometheus client-library counters (`prometheus.CounterVec` cells)
  are modelled, where a claim needs them, as functions `String → Nat`
  bumped pointwise.
-/

namespace EdgeMonitor

/-- Go `GrafanaAlert` (grafana.go). The URL/fingerprint fields
(`GeneratorURL`, `Fingerprint`, `SilenceURL`, `DashboardURL`,
`PanelURL`) are never read by any embedded pipeline function and are
omitted. -/
structure GrafanaAlert where
  status : String
  labels : List (String × String)
  annotations : List (String × String)
  startsAt : Int
  endsAt : Int
  deriving DecidableEq, Inhabited

/-- Go `GrafanaWebhookPayload` (grafana.go). `ExternalURL`, `Version`
and `TruncatedAlerts` are never read by any embedded pipeline function
and are omitted. -/
structure GrafanaWebhookPayload where
  receiver : String
  status : String
  alerts : List GrafanaAlert
  groupLabels : List (String × String)
  commonLabels : List (String × String)
  commonAnnotations : List (String × String)
  groupKey : String
  deriving DecidableEq, Inhabited

/-- Go `analysisJob` (server source, part_002). -/
structure analysisJob where
  id : String
  receivedAt : Int
  payload : GrafanaWebhookPayload
  deriving DecidableEq, Inhabited

/-- Go `MetricQuery` (config source, part_003). -/
structure MetricQuery where
  name : String
  description : String
  query : String
  deriving DecidableEq, Inhabited

/-- Go `MetricSeries` (prometheus.go). -/
structure MetricSeries where
  labels : List (String × String)
  value : String
  deriving DecidableEq, Inhabited

/-- Go `MetricSnapshot` (prometheus.go). Absent optional string fields
are the empty string, as in Go (omitempty only affects JSON output). -/
structure MetricSnapshot where
  name : String
  description : String
  query : String
  resultType : String
  summary : String
  series : List MetricSeries
  error : String
  deriving DecidableEq, Inhabited

/-- Go `LLMRequest` (providers source, part_001). -/
structure LLMRequest where
  systemPrompt : String
  userPrompt : String
  maxTokens : Int
  temperature : ℚ
  deriving DecidableEq, Inhabited

/-- Go `StructuredAnalysis` (providers source, part_001). -/
structure StructuredAnalysis where
  summary : String
  likelyIssue : String
  confidence : ℚ
  evidence : List String
  potentialFix : List String
  nextChecks : List String
  deriving DecidableEq, Inhabited

/-- Go `ProviderResult` (providers source, part_001). `Parsed` is a
pointer in Go, hence an `Option`; the other optional fields are
strings whose absent value is `""`. -/
structure ProviderResult where
  provider : String
  type : String
  model : String
  durationMS : Int
  response : String
  parsed : Option StructuredAnalysis
  error : String
  deriving DecidableEq

/-- The Go zero value of `ProviderResult`, as produced by
`make([]ProviderResult, n)` in `runProviders`. -/
instance : Inhabited ProviderResult :=
  ⟨{ provider := "", type := "", model := "", durationMS := 0,
     response := "", parsed := none, error := "" }⟩

/-- Go `alertSummary` (server source, part_002). -/
structure alertSummary where
  status : String
  labels : List (String × String)
  annotations : List (String × String)
  startsAt : Int
  endsAt : Int
  deriving DecidableEq, Inhabited

/-- Go `analysisRecord` (server source, part_002). -/
structure analysisRecord where
  id : String
  receivedAt : Int
  completedAt : Int
  alertStatus : String
  receiver : String
  groupKey : String
  commonLabels : List (String × String)
  commonAnnots : List (String × String)
  alertSummaries : List alertSummary
  metrics : List MetricSnapshot
  providers : List ProviderResult
  error : String
  deriving DecidableEq, Inhabited

/-- Go `analysisStore.add`: prepend the record, then truncate to the
configured maximum (`s.items = s.items[:s.max]` when the length
exceeds it). The store's slice is the `items` argument; the mutex only
serialises access and does not affect the value. -/
def analysisStoreAdd (max : Nat) (record : analysisRecord)
    (items : List analysisRecord) : List analysisRecord :=
  let items := record :: items
  if items.length > max then items.take max else items

/-- Go `analysisStore.list`: returns a copy of the slice, newest
first; on the value level the copy is the list itself. -/
def analysisStoreList (items : List analysisRecord) : List analysisRecord :=
  items

/-- A sequence of `add` operations applied in order (first element of
`records` added first). -/
def analysisStoreAddAll (max : Nat) (records : List analysisRecord)
    (items : List analysisRecord) : List analysisRecord :=
  records.foldl (fun items r => analysisStoreAdd max r items) items

lemma analysisStoreAdd_eq_take (max : Nat) (r : analysisRecord)
    (items : List analysisRecord) :
    analysisStoreAdd max r items = (r :: items).take max := by
  unfold analysisStoreAdd
  by_cases h : (r :: items).length > max
  · simp [h]
  · simp only [h, if_false]
    exact (List.take_of_length_le (Nat.le_of_not_lt h)).symm

lemma take_append_take {α : Type} (n : Nat) (a b : List α) :
    (a ++ b.take n).take n = (a ++ b).take n := by
  rw [List.take_append_eq_append_take, List.take_append_eq_append_take,
    List.take_take]
  congr 2
  exact Nat.min_eq_left (Nat.sub_le _ _)

lemma analysisStoreAddAll_eq_take (max : Nat) :
    ∀ (records items : List analysisRecord), items.length ≤ max →
    analysisStoreAddAll max records items = (records.reverse ++ items).take max
  | [], items, h => by
      simp [analysisStoreAddAll, List.take_of_length_le h]
  | r :: rs, items, h => by
      have step : analysisStoreAddAll max (r :: rs) items
          = analysisStoreAddAll max rs ((r :: items).take max) := by
        simp [analysisStoreAddAll, analysisStoreAdd_eq_take]
      rw [step, analysisStoreAddAll_eq_take max rs ((r :: items).take max)
        (by simp [List.length_take_le]),
        List.reverse_cons, List.append_assoc, List.singleton_append,
        take_append_take]

/-- An LLM backend adapter. All three Go adapter families
(`openAIProvider`, `ollamaProvider`, `bedrockProvider`, providers
source part_001) store the backend configuration's `SystemPrompt`,
`MaxTokens` and `Temperature` verbatim at construction, expose
`Name`/`Type`/`Model` (with `Type` the family constant for the two
HTTP families), and implement `PrepareRequest` identically via
`applyProviderOverrides`. `Complete` performs network I/O and is
modelled as an outcome oracle at each call site. -/
structure LLMProvider where
  name : String
  type : String
  model : String
  systemPrompt : String
  maxTokens : Int
  temperature : ℚ
  deriving DecidableEq, Inhabited

/-- Go `strings.TrimSpace`: drop leading and trailing Unicode white
space. `Char.isWhitespace` stands in for `unicode.IsSpace`; the two
agree on ASCII. -/
def trimSpace (s : String) : String :=
  ⟨((s.data.dropWhile Char.isWhitespace).reverse.dropWhile
      Char.isWhitespace).reverse⟩

/-- Go `applyProviderOverrides` (providers source part_001, lines
361–372): each override is applied only when non-default
(`strings.TrimSpace(systemPrompt) != ""`, `maxTokens > 0`,
`temperature > 0`); otherwise the caller's field is kept. -/
def applyProviderOverrides (req : LLMRequest) (systemPrompt : String)
    (maxTokens : Int) (temperature : ℚ) : LLMRequest :=
  let req := if trimSpace systemPrompt ≠ "" then
    { req with systemPrompt := systemPrompt } else req
  let req := if maxTokens > 0 then { req with maxTokens := maxTokens } else req
  if temperature > 0 then { req with temperature := temperature } else req

/-- Go `PrepareRequest`, identical for all three adapter families. -/
def LLMProvider.prepareRequest (p : LLMProvider) (req : LLMRequest) : LLMRequest :=
  applyProviderOverrides req p.systemPrompt p.maxTokens p.temperature

/-- Go `defaultSystemPrompt` (prompt source part_000). -/
def defaultSystemPrompt : String :=
  "You analyze edge network alerts using only the provided evidence.\nReturn strict JSON with this shape:\n\x7b\n  \"summary\": \"short incident summary\",\n  \"likely_issue\": \"most likely root cause\",\n  \"confidence\": 0.0,\n  \"evidence\": [\"bullet evidence\"],\n  \"potential_fix\": [\"ordered remediation ideas\"],\n  \"next_checks\": [\"additional checks if evidence is insufficient\"]\n\x7d\nDo not invent radio-level evidence if it is not present in the metrics."

/-- Go `buildLLMRequest` (prompt source part_000). The
`json.MarshalIndent` of the prompt payload is the only fallible step;
its outcome is the oracle argument `marshalPayload` (the serialized
body on success, the error message of `err` on failure). On failure
the error is wrapped as `fmt.Errorf("marshal prompt payload: %w", err)`. -/
def buildLLMRequest (marshalPayload : Except String String) :
    Except String LLMRequest :=
  match marshalPayload with
  | .error e => .error ("marshal prompt payload: " ++ e)
  | .ok body => .ok
      { systemPrompt := defaultSystemPrompt,
        userPrompt := "Evaluate this Grafana alert incident and summarize the issue, likely cause, and potential fix using only the evidence below.\n\n" ++ body,
        maxTokens := 900,
        temperature := 0.2 }

/-- Go `summarizeAlerts` (server source part_002). -/
def summarizeAlerts (alerts : List GrafanaAlert) : List alertSummary :=
  alerts.map (fun alert =>
    { status := alert.status, labels := alert.labels,
      annotations := alert.annotations, startsAt := alert.startsAt,
      endsAt := alert.endsAt })

/-- Go `earliestAlertTime` (grafana.go): fold over the alerts keeping
the smallest non-zero `StartsAt`, starting from `fallback`
(`!alert.StartsAt.IsZero() && alert.StartsAt.Before(earliest)`). -/
def earliestAlertTime (payload : GrafanaWebhookPayload) (fallback : Int) : Int :=
  payload.alerts.foldl
    (fun earliest alert =>
      if alert.startsAt ≠ 0 ∧ alert.startsAt < earliest then alert.startsAt
      else earliest)
    fallback

/-- Go `Config` (config source part_003). Durations are integer
nanoseconds. The backend list only matters through the built provider
list, which the server holds separately (as in the Go `server`
struct). -/
structure Config where
  port : Int
  prometheusURL : String
  prometheusLookback : Int
  prometheusTimeout : Int
  llmTimeout : Int
  jobQueueSize : Nat
  workerCount : Nat
  maxStoredAnalyses : Nat
  metricQueries : List MetricQuery
  deriving DecidableEq, Inhabited

/-- The evidence query-time computation inside Go
`server.collectMetrics` (server source part_002, lines 262–269). The
Go code reads `time.Now().UTC()` three times within microseconds;
these are collapsed into the single parameter `now`, as the comparison
semantics are unchanged for any single instant in between. -/
def collectMetricsQueryTime (payload : GrafanaWebhookPayload)
    (now lookback : Int) : Int :=
  if payload.alerts.length > 0 then
    let earliest := earliestAlertTime payload now
    let qt := earliest + lookback
    if qt > now then now else qt
  else now

/-- Go `server.collectMetrics` (server source part_002, lines
257–289): returns `(nil, nil)` when the trimmed Prometheus URL is
blank; otherwise issues one instant query per configured metric query
at the anchored query time. A failed query contributes a snapshot
carrying only the query's name, description and expression plus the
error string; the loop always returns a nil Go error. The network call
`PrometheusClient.InstantQuery` is the oracle `instantQuery` (its
`MetricSnapshot, error` outcome per query and query time). The
`prometheusQueriesTotal` counter updates carry no data flow and are
not modelled. -/
def collectMetrics (cfg : Config)
    (instantQuery : MetricQuery → Int → Except String MetricSnapshot)
    (job : analysisJob) (now : Int) : List MetricSnapshot × Option String :=
  if trimSpace cfg.prometheusURL = "" then ([], none)
  else
    let queryTime := collectMetricsQueryTime job.payload now cfg.prometheusLookback
    let snapshots := cfg.metricQueries.map (fun query =>
      match instantQuery query queryTime with
      | .error e =>
          { name := query.name, description := query.description,
            query := query.query, resultType := "", summary := "",
            series := [], error := e }
      | .ok snapshot => snapshot)
    (snapshots, none)

/-- The body of one fan-out goroutine in Go `server.runProviders`
(server source part_002, lines 305–337), minus the slot write: build
the result with the adapter's identity and the measured duration, call
`Complete` on the `PrepareRequest`-customized request, record the
error, or record the response and opportunistically attach a
`StructuredAnalysis` when `json.Unmarshal` succeeds and the parsed
summary is non-empty. `completeOutcome` is the oracle for the network
call, `durationMS` the measured wall-clock duration, and
`unmarshalAnalysis` the oracle for `json.Unmarshal` into
`StructuredAnalysis` (`some` on success). -/
def runOneProvider (p : LLMProvider) (request : LLMRequest)
    (completeOutcome : LLMRequest → Except String String)
    (durationMS : Int)
    (unmarshalAnalysis : String → Option StructuredAnalysis) : ProviderResult :=
  let result : ProviderResult :=
    { provider := p.name, type := p.type, model := p.model,
      durationMS := durationMS, response := "", parsed := none, error := "" }
  match completeOutcome (p.prepareRequest request) with
  | .error e => { result with error := e }
  | .ok response =>
      let result := { result with response := response }
      match unmarshalAnalysis response with
      | some parsed =>
          if parsed.summary ≠ "" then { result with parsed := some parsed }
          else result
      | none => result

/-- The concurrent slot writes of Go `server.runProviders`: the
preallocated `make([]ProviderResult, n)` of zero values, with each
goroutine's single write `results[idx] = result` applied in the order
the goroutines happen to complete. `wg.Wait` ensures every launched
index has written before the slice is returned, so `completionOrder`
ranges over permutations of `0..n-1`. -/
def fanOutWrites (n : Nat) (slot : Nat → ProviderResult)
    (completionOrder : List Nat) : List ProviderResult :=
  completionOrder.foldl (fun results i => results.set i (slot i))
    (List.replicate n default)

/-- Go `server.runProviders` (server source part_002, lines 291–341):
build the request once; on serialization failure return the single
synthetic `prompt-builder`/`internal` error entry; otherwise fan out
one call per configured provider into configuration-indexed slots. -/
def runProviders (providers : List LLMProvider)
    (marshalPayload : Except String String)
    (completeOutcome : Nat → LLMRequest → Except String String)
    (durationsMS : Nat → Int)
    (unmarshalAnalysis : String → Option StructuredAnalysis)
    (completionOrder : List Nat) : List ProviderResult :=
  match buildLLMRequest marshalPayload with
  | .error e =>
      [{ provider := "prompt-builder", type := "internal", model := "",
         durationMS := 0, response := "", parsed := none, error := e }]
  | .ok request =>
      fanOutWrites providers.length
        (fun i => runOneProvider (providers.getD i default) request
          (completeOutcome i) (durationsMS i) unmarshalAnalysis)
        completionOrder

/-- The `analysisRecord` assembled by Go `server.processJob` (server
source part_002, lines 209–255): denormalized job fields and alert
summaries, then metrics (with a metric-collection error recorded on
the record), then the provider results (a single synthetic
`none`/`none` entry when no backends are configured), then the
completion timestamp. -/
def processJobRecord (cfg : Config) (providers : List LLMProvider)
    (instantQuery : MetricQuery → Int → Except String MetricSnapshot)
    (marshalPayload : Except String String)
    (completeOutcome : Nat → LLMRequest → Except String String)
    (durationsMS : Nat → Int)
    (unmarshalAnalysis : String → Option StructuredAnalysis)
    (completionOrder : List Nat)
    (job : analysisJob) (now completedAt : Int) : analysisRecord :=
  let record : analysisRecord :=
    { id := job.id, receivedAt := job.receivedAt, completedAt := 0,
      alertStatus := job.payload.status, receiver := job.payload.receiver,
      groupKey := job.payload.groupKey,
      commonLabels := job.payload.commonLabels,
      commonAnnots := job.payload.commonAnnotations,
      alertSummaries := summarizeAlerts job.payload.alerts,
      metrics := [], providers := [], error := "" }
  let mc := collectMetrics cfg instantQuery job now
  let record := match mc.2 with
    | some e => { record with error := e }
    | none => record
  let record := { record with metrics := mc.1 }
  let record :=
    if providers.length = 0 then
      { record with providers :=
        [{ provider := "none", type := "none", model := "", durationMS := 0,
           response := "", parsed := none, error := "no LLM backends configured" }] }
    else
      { record with providers := (runProviders providers marshalPayload
          completeOutcome durationsMS unmarshalAnalysis completionOrder) }
  { record with completedAt := completedAt }

/-- Go `server.processJob`: assemble the record and insert it into the
store (`s.store.add(record)`); the store's slice before/after is the
argument/result. -/
def processJob (cfg : Config) (providers : List LLMProvider)
    (instantQuery : MetricQuery → Int → Except String MetricSnapshot)
    (marshalPayload : Except String String)
    (completeOutcome : Nat → LLMRequest → Except String String)
    (durationsMS : Nat → Int)
    (unmarshalAnalysis : String → Option StructuredAnalysis)
    (completionOrder : List Nat)
    (job : analysisJob) (now completedAt : Int)
    (store : List analysisRecord) : List analysisRecord :=
  analysisStoreAdd cfg.maxStoredAnalyses
    (processJobRecord cfg providers instantQuery marshalPayload
      completeOutcome durationsMS unmarshalAnalysis completionOrder
      job now completedAt)
    store

/-- Lexicographic comparison of character lists by code point,
modelling Go's byte-wise string order (identical on ASCII data, where
UTF-8 order agrees with code-point order; it agrees on all of Unicode
as well since UTF-8 preserves code-point order). -/
def charListLe : List Char → List Char → Bool
  | [], _ => true
  | _ :: _, [] => false
  | a :: as, b :: bs =>
    if a.val.toNat < b.val.toNat then true
    else if b.val.toNat < a.val.toNat then false
    else charListLe as bs

/-- Go string `<=`. -/
def stringLe (a b : String) : Bool :=
  charListLe a.data b.data

/-- Ascending insertion of a string into a sorted list. -/
def insertSorted (x : String) : List String → List String
  | [] => [x]
  | y :: ys => if stringLe x y then x :: y :: ys else y :: insertSorted x ys

/-- Go `sort.Strings`: ascending sort. Insertion sort produces the
same ascending sequence (equal strings are indistinguishable, so
stability is irrelevant). -/
def sortStrings (l : List String) : List String :=
  l.foldr insertSorted []

/-- Go `providerNames` (server source part_002). -/
def providerNames (providers : List LLMProvider) : List String :=
  sortStrings (providers.map LLMProvider.name)

/-- One `prometheus.CounterVec` (a cell per label value), as a total
count per label. -/
def bumpCounter (counter : String → Nat) (label : String) : String → Nat :=
  fun l => if l = label then counter l + 1 else counter l

/-- The mutable state touched by webhook admission: the buffered job
channel's contents, the `alertsReceivedTotal` counter (label:
payload status), the `jobResultsTotal` counter (label: result) and
the queue-depth gauge. -/
structure ServerState where
  queue : List analysisJob
  alertsReceivedTotal : String → Nat
  jobResultsTotal : String → Nat
  queueDepthGauge : Int

/-- The HTTP outcome of Go `server.handleGrafanaWebhook`. -/
inductive WebhookResponse where
  /-- Accepted: HTTP 202 with `job_id`, `status:"queued"`, `alerts`, `backends`. -/
  | accepted (jobId : String) (alerts : Nat) (backends : List String)
  /-- Rejected: HTTP 503 `"queue full"`. -/
  | queueFull
  /-- Malformed: HTTP 400 `"invalid json body"`. -/
  | invalidJson
  /-- NonPost: HTTP 405 `"method not allowed"`. -/
  | methodNotAllowed
  deriving DecidableEq

/-- Go `server.handleGrafanaWebhook` (server source part_002, lines
159–200). `decodedBody` is the oracle for `json.Decode` on the
request body; `jobId` stands for the generated
`fmt.Sprintf("%d-%s", time.Now().UnixNano(), sanitizeID(groupKey))`.
The Go `select` with a `default` branch on the buffered channel is a
non-blocking send: it succeeds exactly when the buffer
(`cfg.jobQueueSize`) has room, and otherwise takes the `default`
branch immediately. Note `alertsReceivedTotal` is incremented as soon
as the body decodes, before the enqueue decision. -/
def handleGrafanaWebhook (cfg : Config) (providers : List LLMProvider)
    (methodIsPost : Bool) (decodedBody : Option GrafanaWebhookPayload)
    (jobId : String) (now : Int) (st : ServerState) :
    ServerState × WebhookResponse :=
  if !methodIsPost then (st, .methodNotAllowed)
  else
    match decodedBody with
    | none => (st, .invalidJson)
    | some payload =>
      let st := { st with
        alertsReceivedTotal := bumpCounter st.alertsReceivedTotal payload.status }
      let job : analysisJob :=
        { id := jobId, receivedAt := now, payload := payload }
      if st.queue.length < cfg.jobQueueSize then
        let st := { st with queue := st.queue ++ [job] }
        let st := { st with queueDepthGauge := st.queueDepthGauge + 1 }
        (st, .accepted job.id payload.alerts.length (providerNames providers))
      else
        let st := { st with
          jobResultsTotal := bumpCounter st.jobResultsTotal "queue_full" }
        (st, .queueFull)

/-- Go `server.worker` (server source part_002, lines 202–207): drain
jobs one at a time, running `processJob` synchronously on each. The
loop body contains no `recover` (nor does any function it calls,
anywhere in the repository), so a Go panic raised while processing a
job unwinds out of the loop and the worker goroutine is gone for good
(in Go it moreover crashes the whole process); the jobs still queued
are never processed by this worker. `panicsOn job` is the oracle for
"processing this job panics mid-job"; `processJobStep` is the store
effect of a normal `processJob` run. Returns the final store and the
queued jobs left unprocessed when the worker died. -/
def worker (panicsOn : analysisJob → Bool)
    (processJobStep : analysisJob → List analysisRecord → List analysisRecord) :
    List analysisJob → List analysisRecord →
      List analysisRecord × List analysisJob
  | [], store => (store, [])
  | job :: rest, store =>
    if panicsOn job then (store, rest)
    else worker panicsOn processJobStep rest (processJobStep job store)

/-- The evidence query time as the spec sentence of claim C3 states
it (written from the spec's words, for comparison with
`collectMetricsQueryTime`): the minimum non-zero `StartsAt` across
the job's alerts plus the lookback duration, falling back to the
job's arrival time when no alert carries a non-zero start time,
clamped so as not to exceed the current time. -/
def claimedQueryTime (payload : GrafanaWebhookPayload)
    (arrival now lookback : Int) : Int :=
  let starts := (payload.alerts.map GrafanaAlert.startsAt).filter (· ≠ 0)
  let earliest := match starts.min? with
    | some m => m
    | none => arrival
  min (earliest + lookback) now

/-- The evidence query time as the code computes it, written
independently for the amended claim C3: the minimum of the current
time and every non-zero alert `StartsAt`, plus the lookback, clamped
so as not to exceed the current time. The current time, not the job's
arrival time, is the fallback. -/
def amendedQueryTime (payload : GrafanaWebhookPayload)
    (now lookback : Int) : Int :=
  let earliest :=
    ((payload.alerts.map GrafanaAlert.startsAt).filter (· ≠ 0)).foldl min now
  min (earliest + lookback) now

/-! Concrete sample data used to evaluate the theorems on explicit
inputs. -/

/-- An alert group whose single alert carries the Go zero `StartsAt`. -/
def c3Payload : GrafanaWebhookPayload :=
  { receiver := "r", status := "firing",
    alerts := [{ status := "firing", labels := [], annotations := [],
                 startsAt := 0, endsAt := 0 }],
    groupLabels := [], commonLabels := [], commonAnnotations := [],
    groupKey := "g" }

/-- An alert group with `StartsAt` values T = 50 and T + 5 = 55. -/
def c3PayloadTwo : GrafanaWebhookPayload :=
  { receiver := "r", status := "firing",
    alerts := [{ status := "firing", labels := [], annotations := [],
                 startsAt := 55, endsAt := 0 },
               { status := "firing", labels := [], annotations := [],
                 startsAt := 50, endsAt := 0 }],
    groupLabels := [], commonLabels := [], commonAnnotations := [],
    groupKey := "g" }

/-- Two configured backend adapters. -/
def c1Providers : List LLMProvider :=
  [{ name := "alpha", type := "openai", model := "m1", systemPrompt := "",
     maxTokens := 0, temperature := 0 },
   { name := "beta", type := "ollama", model := "m2", systemPrompt := "sp",
     maxTokens := 3, temperature := 1 }]

/-- A completion oracle: the first backend answers, the second fails. -/
def c1Complete : Nat → LLMRequest → Except String String :=
  fun i _ => if i = 0 then .ok "resp0" else .error "boom"

def c1Durations : Nat → Int := fun i => Int.ofNat i + 5

def c1Unmarshal : String → Option StructuredAnalysis := fun _ => none

/-- The request `buildLLMRequest` yields for the serialized body
`"body"`. -/
def c1Request : LLMRequest :=
  { systemPrompt := defaultSystemPrompt,
    userPrompt := "Evaluate this Grafana alert incident and summarize the issue, likely cause, and potential fix using only the evidence below.\n\nbody",
    maxTokens := 900, temperature := 0.2 }

def c2Provider : LLMProvider :=
  { name := "alpha", type := "openai", model := "m1", systemPrompt := "",
    maxTokens := 0, temperature := 0 }

def c2Request : LLMRequest :=
  { systemPrompt := "s", userPrompt := "u", maxTokens := 10, temperature := 1 }

def c2Analysis : StructuredAnalysis :=
  { summary := "sum", likelyIssue := "iss", confidence := 1, evidence := [],
    potentialFix := [], nextChecks := [] }

/-- An unmarshal oracle that parses exactly the text `"x"`. -/
def c2Unmarshal : String → Option StructuredAnalysis :=
  fun s => if s = "x" then some c2Analysis else none

def c2Complete : LLMRequest → Except String String := fun _ => .ok "x"

/-- Three records, oldest added first. -/
def c4Records : List analysisRecord :=
  [{ (default : analysisRecord) with id := "r1" },
   { (default : analysisRecord) with id := "r2" },
   { (default : analysisRecord) with id := "r3" }]

def c5Provider : LLMProvider :=
  { name := "alpha", type := "openai", model := "m1", systemPrompt := " ",
    maxTokens := 0, temperature := 2 }

def c5Request : LLMRequest :=
  { systemPrompt := "caller", userPrompt := "u", maxTokens := 7,
    temperature := 1 }

def c6Cfg : Config :=
  { port := 9094, prometheusURL := "http://prom:9090",
    prometheusLookback := 10, prometheusTimeout := 1, llmTimeout := 1,
    jobQueueSize := 1, workerCount := 2, maxStoredAnalyses := 25,
    metricQueries := [] }

def c6Payload : GrafanaWebhookPayload :=
  { receiver := "r", status := "firing", alerts := [], groupLabels := [],
    commonLabels := [], commonAnnotations := [], groupKey := "g" }

def c6Job : analysisJob :=
  { id := "job-0", receivedAt := 1, payload := c6Payload }

/-- A server state whose job queue is at capacity (for `c6Cfg`). -/
def c6FullState : ServerState :=
  { queue := [c6Job], alertsReceivedTotal := fun _ => 0,
    jobResultsTotal := fun _ => 0, queueDepthGauge := 1 }

/-- A server state with a free queue slot. -/
def c6EmptyState : ServerState :=
  { queue := [], alertsReceivedTotal := fun _ => 0,
    jobResultsTotal := fun _ => 0, queueDepthGauge := 0 }

def c7Cfg : Config :=
  { port := 9094, prometheusURL := "", prometheusLookback := 10,
    prometheusTimeout := 1, llmTimeout := 1, jobQueueSize := 32,
    workerCount := 2, maxStoredAnalyses := 25, metricQueries := [] }

def c7Providers : List LLMProvider :=
  [{ name := "alpha", type := "openai", model := "m1", systemPrompt := "",
     maxTokens := 0, temperature := 0 }]

def c7Job : analysisJob :=
  { id := "job-7", receivedAt := 3, payload := c6Payload }

def c7Query : MetricQuery → Int → Except String MetricSnapshot :=
  fun _ _ => .error "unreachable"

def c8Cfg : Config :=
  { port := 9094, prometheusURL := "http://prom:9090",
    prometheusLookback := 10, prometheusTimeout := 1, llmTimeout := 1,
    jobQueueSize := 32, workerCount := 2, maxStoredAnalyses := 25,
    metricQueries := [{ name := "q1", description := "d1", query := "e1" },
                      { name := "q2", description := "d2", query := "e2" }] }

/-- A query oracle failing on `q1` and succeeding on `q2`. -/
def c8Query : MetricQuery → Int → Except String MetricSnapshot :=
  fun q _ =>
    if q.name = "q1" then .error "connection refused"
    else .ok { name := q.name, description := q.description,
               query := q.query, resultType := "scalar", summary := "value=1",
               series := [{ labels := [], value := "1" }], error := "" }

def c8Job : analysisJob :=
  { id := "job-8", receivedAt := 3, payload := c6Payload }

/-- A configuration whose metrics-backend URL is blank. -/
def c10Cfg : Config :=
  { port := 9094, prometheusURL := " ", prometheusLookback := 10,
    prometheusTimeout := 1, llmTimeout := 1, jobQueueSize := 32,
    workerCount := 2, maxStoredAnalyses := 25,
    metricQueries := [{ name := "q1", description := "d1", query := "e1" }] }

/-! Helper lemmas. -/

lemma collectMetrics_snd_eq_none (cfg : Config)
    (instantQuery : MetricQuery → Int → Except String MetricSnapshot)
    (job : analysisJob) (now : Int) :
    (collectMetrics cfg instantQuery job now).2 = none := by
  unfold collectMetrics
  by_cases h : trimSpace cfg.prometheusURL = "" <;> simp [h]

lemma earliestAlertTime_eq_foldl_min :
    ∀ (alerts : List GrafanaAlert) (fallback : Int),
    alerts.foldl
      (fun earliest alert =>
        if alert.startsAt ≠ 0 ∧ alert.startsAt < earliest then alert.startsAt
        else earliest) fallback
    = ((alerts.map GrafanaAlert.startsAt).filter (· ≠ 0)).foldl min fallback
  | [], _ => rfl
  | a :: as, fallback => by
    rw [List.foldl_cons, earliestAlertTime_eq_foldl_min as]
    by_cases h0 : a.startsAt = 0
    · simp [h0]
    · have hmin : (if a.startsAt ≠ 0 ∧ a.startsAt < fallback then a.startsAt
          else fallback) = min fallback a.startsAt := by
        rw [Int.min_def]
        split_ifs <;> omega
      rw [hmin]
      simp [h0]

lemma fanOutWrites_foldl_length (slot : Nat → ProviderResult) :
    ∀ (order : List Nat) (l : List ProviderResult),
    (order.foldl (fun results i => results.set i (slot i)) l).length = l.length
  | [], _ => rfl
  | j :: rest, l => by
    rw [List.foldl_cons, fanOutWrites_foldl_length slot rest]
    simp

lemma fanOutWrites_foldl_getD (slot : Nat → ProviderResult) (i : Nat) :
    ∀ (order : List Nat) (l : List ProviderResult), i < l.length →
    (i ∈ order ∨ l.getD i default = slot i) →
    (order.foldl (fun results i => results.set i (slot i)) l).getD i default
      = slot i
  | [], l, _, h => by
    rcases h with h | h
    · exact absurd h (List.not_mem_nil i)
    · simpa using h
  | j :: rest, l, hi, h => by
    rw [List.foldl_cons]
    apply fanOutWrites_foldl_getD slot i rest (l.set j (slot j))
      (by simpa using hi)
    by_cases hij : i = j
    · subst hij
      right
      simp [List.getD_eq_getElem?_getD, List.getElem?_set_eq_of_lt _ hi]
    · rcases h with h | h
      · rcases List.mem_cons.mp h with h1 | h1
        · exact absurd h1 hij
        · exact Or.inl h1
      · right
        rw [List.getD_eq_getElem?_getD,
          List.getElem?_set_ne (fun hh => hij hh.symm),
          ← List.getD_eq_getElem?_getD]
        exact h

lemma fanOutWrites_length (n : Nat) (slot : Nat → ProviderResult)
    (order : List Nat) : (fanOutWrites n slot order).length = n := by
  unfold fanOutWrites
  rw [fanOutWrites_foldl_length]
  simp

lemma fanOutWrites_getD (n : Nat) (slot : Nat → ProviderResult)
    (order : List Nat) (i : Nat) (hi : i < n) (hmem : i ∈ order) :
    (fanOutWrites n slot order).getD i default = slot i := by
  unfold fanOutWrites
  exact fanOutWrites_foldl_getD slot i order (List.replicate n default)
    (by simpa using hi) (Or.inl hmem)

/-! Claim theorems. -/

/-- C4: for a Record Store of capacity N ≥ 1 and a sequence of M > N
add operations on an initially empty store, `list()` afterwards
returns exactly N records, equal to the N most recently added records
in newest-first order (so every add keeps at most N records and
evicts only from the tail). -/
theorem recordStore_capacity_law (N : Nat) (records : List analysisRecord)
    (_hN : 1 ≤ N) (hM : N < records.length) :
    (analysisStoreList (analysisStoreAddAll N records [])).length = N ∧
    analysisStoreList (analysisStoreAddAll N records [])
      = records.reverse.take N := by
  have hall := analysisStoreAddAll_eq_take N records [] (by simp)
  rw [List.append_nil] at hall
  refine ⟨?_, ?_⟩
  · rw [analysisStoreList, hall, List.length_take, List.length_reverse]
    omega
  · rw [analysisStoreList, hall]

theorem recordStore_capacity_law_witness :
    1 ≤ 2 ∧ 2 < c4Records.length ∧
    ((analysisStoreList (analysisStoreAddAll 2 c4Records [])).length = 2 ∧
     analysisStoreList (analysisStoreAddAll 2 c4Records [])
       = c4Records.reverse.take 2) :=
  ⟨by decide, by decide,
   recordStore_capacity_law 2 c4Records (by decide) (by decide)⟩

/-- C3 counterexample: the claim's query-time formula (minimum
non-zero `StartsAt`, falling back to the job's ARRIVAL time) disagrees
with the code, whose `earliestAlertTime` fallback is the CURRENT time
and which takes the minimum together with that fallback. For a job
whose single alert carries the zero `StartsAt`, arrival time 0,
current time 100 and lookback 10, the claim predicts query time
`min(0+10,100) = 10` while the code computes 100. -/
theorem evidenceQueryTime_claim_counterexample :
    collectMetricsQueryTime c3Payload 100 10 = 100 ∧
    claimedQueryTime c3Payload 0 100 10 = 10 := by decide

/-- C3 (amended): for every job with a non-empty alert list, the
evidence query time equals `e + lookback` clamped to the current
time, where `e` is the minimum of the current time and all non-zero
alert `StartsAt` values; the fallback when no alert carries a
non-zero start time is the current time at processing, not the job's
arrival time. -/
theorem evidenceQueryTime_matches_code_anchor
    (payload : GrafanaWebhookPayload) (now lookback : Int)
    (h : payload.alerts ≠ []) :
    collectMetricsQueryTime payload now lookback
      = amendedQueryTime payload now lookback := by
  unfold collectMetricsQueryTime amendedQueryTime earliestAlertTime
  have hlen : 0 < payload.alerts.length := List.length_pos.mpr h
  dsimp only
  rw [if_pos hlen, earliestAlertTime_eq_foldl_min]
  rw [Int.min_def]
  split_ifs <;> omega

theorem evidenceQueryTime_matches_code_anchor_witness :
    c3PayloadTwo.alerts ≠ [] ∧
    collectMetricsQueryTime c3PayloadTwo 100 30
      = amendedQueryTime c3PayloadTwo 100 30 :=
  ⟨by decide,
   evidenceQueryTime_matches_code_anchor c3PayloadTwo 100 30 (by decide)⟩

lemma applyProviderOverrides_systemPrompt (req : LLMRequest) (sp : String)
    (mt : Int) (t : ℚ) :
    (applyProviderOverrides req sp mt t).systemPrompt
      = if trimSpace sp = "" then req.systemPrompt else sp := by
  unfold applyProviderOverrides
  by_cases h1 : trimSpace sp = "" <;> by_cases h2 : mt > 0 <;>
    by_cases h3 : t > 0 <;> simp [h1, h2, h3]

lemma applyProviderOverrides_maxTokens (req : LLMRequest) (sp : String)
    (mt : Int) (t : ℚ) :
    (applyProviderOverrides req sp mt t).maxTokens
      = if mt > 0 then mt else req.maxTokens := by
  unfold applyProviderOverrides
  by_cases h1 : trimSpace sp = "" <;> by_cases h2 : mt > 0 <;>
    by_cases h3 : t > 0 <;> simp [h1, h2, h3]

lemma applyProviderOverrides_temperature (req : LLMRequest) (sp : String)
    (mt : Int) (t : ℚ) :
    (applyProviderOverrides req sp mt t).temperature
      = if t > 0 then t else req.temperature := by
  unfold applyProviderOverrides
  by_cases h1 : trimSpace sp = "" <;> by_cases h2 : mt > 0 <;>
    by_cases h3 : t > 0 <;> simp [h1, h2, h3]

lemma trimSpace_empty : trimSpace "" = "" := rfl

/-- C5: `PrepareRequest` (the customize step, identical for all three
adapter families) overrides the system prompt, max tokens or
temperature only when the adapter's configured override value is
non-default; when the configured override is zero (or
trimmed-to-empty for the prompt) the caller's value for that field is
returned unchanged; and a caller-supplied non-empty/non-zero value is
never reset to empty or zero. -/
theorem prepareRequest_override_policy (p : LLMProvider) (req : LLMRequest) :
    (trimSpace p.systemPrompt = "" →
      (p.prepareRequest req).systemPrompt = req.systemPrompt) ∧
    (p.maxTokens = 0 → (p.prepareRequest req).maxTokens = req.maxTokens) ∧
    (p.temperature = 0 →
      (p.prepareRequest req).temperature = req.temperature) ∧
    ((p.prepareRequest req).systemPrompt ≠ req.systemPrompt →
      trimSpace p.systemPrompt ≠ "" ∧
      (p.prepareRequest req).systemPrompt = p.systemPrompt) ∧
    ((p.prepareRequest req).maxTokens ≠ req.maxTokens →
      p.maxTokens > 0 ∧ (p.prepareRequest req).maxTokens = p.maxTokens) ∧
    ((p.prepareRequest req).temperature ≠ req.temperature →
      p.temperature > 0 ∧
      (p.prepareRequest req).temperature = p.temperature) ∧
    (req.systemPrompt ≠ "" → (p.prepareRequest req).systemPrompt ≠ "") ∧
    (req.maxTokens ≠ 0 → (p.prepareRequest req).maxTokens ≠ 0) ∧
    (req.temperature ≠ 0 → (p.prepareRequest req).temperature ≠ 0) := by
  unfold LLMProvider.prepareRequest
  rw [applyProviderOverrides_systemPrompt, applyProviderOverrides_maxTokens,
    applyProviderOverrides_temperature]
  by_cases h1 : trimSpace p.systemPrompt = "" <;>
    by_cases h2 : p.maxTokens > 0 <;>
      by_cases h3 : p.temperature > 0 <;>
        refine ⟨?_, ?_, ?_, ?_, ?_, ?_, ?_, ?_, ?_⟩ <;>
          simp [h1, h2, h3] <;>
            first
            | omega
            | (intro h; exact ne_of_gt h3)
            | (intro ht; rw [ht] at h3; exact absurd h3 (lt_irrefl 0))
            | (intro h; exact fun hs => h1 (by rw [hs]; exact trimSpace_empty))

theorem prepareRequest_override_policy_witness :
    (trimSpace c5Provider.systemPrompt = "" →
      (c5Provider.prepareRequest c5Request).systemPrompt
        = c5Request.systemPrompt) ∧
    (c5Provider.maxTokens = 0 →
      (c5Provider.prepareRequest c5Request).maxTokens
        = c5Request.maxTokens) ∧
    (c5Provider.temperature = 0 →
      (c5Provider.prepareRequest c5Request).temperature
        = c5Request.temperature) ∧
    ((c5Provider.prepareRequest c5Request).systemPrompt
        ≠ c5Request.systemPrompt →
      trimSpace c5Provider.systemPrompt ≠ "" ∧
      (c5Provider.prepareRequest c5Request).systemPrompt
        = c5Provider.systemPrompt) ∧
    ((c5Provider.prepareRequest c5Request).maxTokens
        ≠ c5Request.maxTokens →
      c5Provider.maxTokens > 0 ∧
      (c5Provider.prepareRequest c5Request).maxTokens
        = c5Provider.maxTokens) ∧
    ((c5Provider.prepareRequest c5Request).temperature
        ≠ c5Request.temperature →
      c5Provider.temperature > 0 ∧
      (c5Provider.prepareRequest c5Request).temperature
        = c5Provider.temperature) ∧
    (c5Request.systemPrompt ≠ "" →
      (c5Provider.prepareRequest c5Request).systemPrompt ≠ "") ∧
    (c5Request.maxTokens ≠ 0 →
      (c5Provider.prepareRequest c5Request).maxTokens ≠ 0) ∧
    (c5Request.temperature ≠ 0 →
      (c5Provider.prepareRequest c5Request).temperature ≠ 0) :=
  prepareRequest_override_policy c5Provider c5Request

lemma runOneProvider_identity (p : LLMProvider) (request : LLMRequest)
    (completeOutcome : LLMRequest → Except String String) (durationMS : Int)
    (unmarshalAnalysis : String → Option StructuredAnalysis) :
    (runOneProvider p request completeOutcome durationMS
        unmarshalAnalysis).provider = p.name ∧
    (runOneProvider p request completeOutcome durationMS
        unmarshalAnalysis).type = p.type ∧
    (runOneProvider p request completeOutcome durationMS
        unmarshalAnalysis).model = p.model := by
  unfold runOneProvider
  dsimp only
  cases completeOutcome (p.prepareRequest request) with
  | error e => simp
  | ok r =>
    dsimp only
    cases unmarshalAnalysis r with
    | none => simp
    | some a => by_cases h : a.summary = "" <;> simp [h]

/-- C1: whenever fan-out runs (at least one backend configured and
prompt construction succeeded), the resulting ProviderResult list has
exactly one entry per configured backend, and the entry at index i is
the result computed for the adapter at configuration index i —
carrying that adapter's name, type and model — for every completion
order of the concurrent calls (any permutation of the launched
indices, as guaranteed by the `wg.Wait` wait-all join). -/
theorem runProviders_preserves_configuration_order
    (providers : List LLMProvider) (marshalPayload : Except String String)
    (completeOutcome : Nat → LLMRequest → Except String String)
    (durationsMS : Nat → Int)
    (unmarshalAnalysis : String → Option StructuredAnalysis)
    (completionOrder : List Nat) (request : LLMRequest)
    (hbuild : buildLLMRequest marshalPayload = .ok request)
    (_hprov : providers ≠ [])
    (horder : completionOrder.Perm (List.range providers.length)) :
    (runProviders providers marshalPayload completeOutcome durationsMS
        unmarshalAnalysis completionOrder).length = providers.length ∧
    ∀ i, i < providers.length →
      (runProviders providers marshalPayload completeOutcome durationsMS
          unmarshalAnalysis completionOrder).getD i default
        = runOneProvider (providers.getD i default) request
            (completeOutcome i) (durationsMS i) unmarshalAnalysis ∧
      ((runProviders providers marshalPayload completeOutcome durationsMS
          unmarshalAnalysis completionOrder).getD i default).provider
        = (providers.getD i default).name ∧
      ((runProviders providers marshalPayload completeOutcome durationsMS
          unmarshalAnalysis completionOrder).getD i default).type
        = (providers.getD i default).type ∧
      ((runProviders providers marshalPayload completeOutcome durationsMS
          unmarshalAnalysis completionOrder).getD i default).model
        = (providers.getD i default).model := by
  unfold runProviders
  rw [hbuild]
  refine ⟨fanOutWrites_length _ _ _, ?_⟩
  intro i hi
  have hmem : i ∈ completionOrder := horder.mem_iff.mpr (List.mem_range.mpr hi)
  have hslot := fanOutWrites_getD providers.length
    (fun i => runOneProvider (providers.getD i default) request
      (completeOutcome i) (durationsMS i) unmarshalAnalysis)
    completionOrder i hi hmem
  have hid := runOneProvider_identity (providers.getD i default) request
    (completeOutcome i) (durationsMS i) unmarshalAnalysis
  exact ⟨hslot, by rw [hslot]; exact hid.1, by rw [hslot]; exact hid.2.1,
    by rw [hslot]; exact hid.2.2⟩

theorem runProviders_preserves_configuration_order_witness :
    buildLLMRequest (Except.ok "body") = Except.ok c1Request ∧
    c1Providers ≠ [] ∧
    List.Perm [1, 0] (List.range c1Providers.length) ∧
    ((runProviders c1Providers (Except.ok "body") c1Complete c1Durations
        c1Unmarshal [1, 0]).length = c1Providers.length ∧
     ∀ i, i < c1Providers.length →
       (runProviders c1Providers (Except.ok "body") c1Complete c1Durations
           c1Unmarshal [1, 0]).getD i default
         = runOneProvider (c1Providers.getD i default) c1Request
             (c1Complete i) (c1Durations i) c1Unmarshal ∧
       ((runProviders c1Providers (Except.ok "body") c1Complete c1Durations
           c1Unmarshal [1, 0]).getD i default).provider
         = (c1Providers.getD i default).name ∧
       ((runProviders c1Providers (Except.ok "body") c1Complete c1Durations
           c1Unmarshal [1, 0]).getD i default).type
         = (c1Providers.getD i default).type ∧
       ((runProviders c1Providers (Except.ok "body") c1Complete c1Durations
           c1Unmarshal [1, 0]).getD i default).model
         = (c1Providers.getD i default).model) :=
  ⟨rfl, by decide, by decide,
   runProviders_preserves_configuration_order c1Providers (Except.ok "body")
     c1Complete c1Durations c1Unmarshal [1, 0] c1Request rfl (by decide)
     (by decide)⟩

/-- C2: for every successful backend response text r, the result
stores r as the raw response text, and a StructuredAnalysis a is
attached to the result if and only if r unmarshals as the
StructuredAnalysis shape yielding a and a's summary field is
non-empty; in all other cases the parsed field stays absent while r
is still stored. -/
theorem structuredAnalysis_attach_iff
    (p : LLMProvider) (request : LLMRequest)
    (completeOutcome : LLMRequest → Except String String)
    (durationMS : Int)
    (unmarshalAnalysis : String → Option StructuredAnalysis)
    (r : String) (a : StructuredAnalysis)
    (hok : completeOutcome (p.prepareRequest request) = .ok r) :
    (runOneProvider p request completeOutcome durationMS
        unmarshalAnalysis).response = r ∧
    ((runOneProvider p request completeOutcome durationMS
        unmarshalAnalysis).parsed = some a
      ↔ unmarshalAnalysis r = some a ∧ a.summary ≠ "") := by
  refine ⟨?_, ?_⟩
  · unfold runOneProvider
    dsimp only
    rw [hok]
    dsimp only
    cases unmarshalAnalysis r with
    | none => rfl
    | some b => by_cases hb : b.summary = "" <;> simp [hb]
  · unfold runOneProvider
    dsimp only
    rw [hok]
    dsimp only
    cases hu : unmarshalAnalysis r with
    | none => simp
    | some b =>
      by_cases hb : b.summary = ""
      · simp [hb]
        rintro rfl
        exact hb
      · simp [hb]
        rintro rfl
        exact hb

theorem structuredAnalysis_attach_iff_witness :
    c2Complete (c2Provider.prepareRequest c2Request) = Except.ok "x" ∧
    ((runOneProvider c2Provider c2Request c2Complete 7
        c2Unmarshal).response = "x" ∧
     ((runOneProvider c2Provider c2Request c2Complete 7
         c2Unmarshal).parsed = some c2Analysis
       ↔ c2Unmarshal "x" = some c2Analysis ∧ c2Analysis.summary ≠ "")) :=
  ⟨rfl, structuredAnalysis_attach_iff c2Provider c2Request c2Complete 7
    c2Unmarshal "x" c2Analysis rfl⟩

/-- C6 counterexample: the claim says the "received" counter is
incremented only on acceptance, but the code increments it as soon as
the body decodes, before the enqueue decision. With the queue at
capacity (capacity 1, one queued job), a decoded "firing" submission
is rejected with 503 "queue full" AND the received counter for
"firing" still rises from 0 to 1. -/
theorem receivedCounter_increment_counterexample :
    (handleGrafanaWebhook c6Cfg [] true (some c6Payload) "id2" 5
        c6FullState).2 = WebhookResponse.queueFull ∧
    (handleGrafanaWebhook c6Cfg [] true (some c6Payload) "id2" 5
        c6FullState).1.alertsReceivedTotal "firing" = 1 := by decide

/-- C6 (amended): webhook admission never blocks — the enqueue attempt
is an immediate full/not-full decision on the buffered queue. The
"received" counter tagged by alert status is incremented on every
successfully decoded submission, before the admission decision (hence
also on rejection); on rejection because the queue is full the
"queue_full" counter is incremented, the caller receives the
capacity-exceeded signal (503 "queue full"), and no job is
enqueued. -/
theorem webhookAdmission_nonblocking (cfg : Config)
    (providers : List LLMProvider) (payload : GrafanaWebhookPayload)
    (jobId : String) (now : Int) (st : ServerState) :
    (handleGrafanaWebhook cfg providers true (some payload) jobId now
        st).1.alertsReceivedTotal payload.status
      = st.alertsReceivedTotal payload.status + 1 ∧
    (st.queue.length < cfg.jobQueueSize →
      (handleGrafanaWebhook cfg providers true (some payload) jobId now st).2
        = WebhookResponse.accepted jobId payload.alerts.length
            (providerNames providers) ∧
      (handleGrafanaWebhook cfg providers true (some payload) jobId now
          st).1.queue
        = st.queue ++ [{ id := jobId, receivedAt := now, payload := payload }] ∧
      (handleGrafanaWebhook cfg providers true (some payload) jobId now
          st).1.jobResultsTotal "queue_full"
        = st.jobResultsTotal "queue_full") ∧
    (¬ st.queue.length < cfg.jobQueueSize →
      (handleGrafanaWebhook cfg providers true (some payload) jobId now st).2
        = WebhookResponse.queueFull ∧
      (handleGrafanaWebhook cfg providers true (some payload) jobId now
          st).1.queue = st.queue ∧
      (handleGrafanaWebhook cfg providers true (some payload) jobId now
          st).1.jobResultsTotal "queue_full"
        = st.jobResultsTotal "queue_full" + 1) := by
  unfold handleGrafanaWebhook
  by_cases hq : st.queue.length < cfg.jobQueueSize <;>
    simp [hq, bumpCounter]

theorem webhookAdmission_nonblocking_witness :
    (handleGrafanaWebhook c6Cfg [] true (some c6Payload) "id9" 5
        c6EmptyState).1.alertsReceivedTotal c6Payload.status
      = c6EmptyState.alertsReceivedTotal c6Payload.status + 1 ∧
    (c6EmptyState.queue.length < c6Cfg.jobQueueSize →
      (handleGrafanaWebhook c6Cfg [] true (some c6Payload) "id9" 5
          c6EmptyState).2
        = WebhookResponse.accepted "id9" c6Payload.alerts.length
            (providerNames []) ∧
      (handleGrafanaWebhook c6Cfg [] true (some c6Payload) "id9" 5
          c6EmptyState).1.queue
        = c6EmptyState.queue
            ++ [{ id := "id9", receivedAt := 5, payload := c6Payload }] ∧
      (handleGrafanaWebhook c6Cfg [] true (some c6Payload) "id9" 5
          c6EmptyState).1.jobResultsTotal "queue_full"
        = c6EmptyState.jobResultsTotal "queue_full") ∧
    (¬ c6EmptyState.queue.length < c6Cfg.jobQueueSize →
      (handleGrafanaWebhook c6Cfg [] true (some c6Payload) "id9" 5
          c6EmptyState).2 = WebhookResponse.queueFull ∧
      (handleGrafanaWebhook c6Cfg [] true (some c6Payload) "id9" 5
          c6EmptyState).1.queue = c6EmptyState.queue ∧
      (handleGrafanaWebhook c6Cfg [] true (some c6Payload) "id9" 5
          c6EmptyState).1.jobResultsTotal "queue_full"
        = c6EmptyState.jobResultsTotal "queue_full" + 1) :=
  webhookAdmission_nonblocking c6Cfg [] c6Payload "id9" 5 c6EmptyState

/-- C7: when prompt construction (`buildLLMRequest`) fails, fan-out is
skipped and the job's provider list is exactly one synthetic
backend-less (`prompt-builder`/`internal`, empty model) error entry
carrying the wrapped serialization error; a complete AnalysisRecord
for the job — identifier, timestamps, denormalized alert-group fields
and alert summaries — is still assembled and inserted at the front of
the Record Store rather than the job being dropped. -/
theorem promptFailure_records_synthetic_entry (cfg : Config)
    (providers : List LLMProvider)
    (instantQuery : MetricQuery → Int → Except String MetricSnapshot)
    (e : String)
    (completeOutcome : Nat → LLMRequest → Except String String)
    (durationsMS : Nat → Int)
    (unmarshalAnalysis : String → Option StructuredAnalysis)
    (completionOrder : List Nat) (job : analysisJob) (now completedAt : Int)
    (store : List analysisRecord)
    (hprov : providers ≠ []) (hmax : 1 ≤ cfg.maxStoredAnalyses) :
    (processJobRecord cfg providers instantQuery (.error e) completeOutcome
        durationsMS unmarshalAnalysis completionOrder job now
        completedAt).providers
      = [{ provider := "prompt-builder", type := "internal", model := "",
           durationMS := 0, response := "", parsed := none,
           error := "marshal prompt payload: " ++ e }] ∧
    (processJobRecord cfg providers instantQuery (.error e) completeOutcome
        durationsMS unmarshalAnalysis completionOrder job now
        completedAt).id = job.id ∧
    (processJobRecord cfg providers instantQuery (.error e) completeOutcome
        durationsMS unmarshalAnalysis completionOrder job now
        completedAt).receivedAt = job.receivedAt ∧
    (processJobRecord cfg providers instantQuery (.error e) completeOutcome
        durationsMS unmarshalAnalysis completionOrder job now
        completedAt).alertStatus = job.payload.status ∧
    (processJobRecord cfg providers instantQuery (.error e) completeOutcome
        durationsMS unmarshalAnalysis completionOrder job now
        completedAt).receiver = job.payload.receiver ∧
    (processJobRecord cfg providers instantQuery (.error e) completeOutcome
        durationsMS unmarshalAnalysis completionOrder job now
        completedAt).groupKey = job.payload.groupKey ∧
    (processJobRecord cfg providers instantQuery (.error e) completeOutcome
        durationsMS unmarshalAnalysis completionOrder job now
        completedAt).alertSummaries = summarizeAlerts job.payload.alerts ∧
    (processJobRecord cfg providers instantQuery (.error e) completeOutcome
        durationsMS unmarshalAnalysis completionOrder job now
        completedAt).completedAt = completedAt ∧
    (processJob cfg providers instantQuery (.error e) completeOutcome
        durationsMS unmarshalAnalysis completionOrder job now completedAt
        store).head?
      = some (processJobRecord cfg providers instantQuery (.error e)
          completeOutcome durationsMS unmarshalAnalysis completionOrder job
          now completedAt) := by
  have hmc := collectMetrics_snd_eq_none cfg instantQuery job now
  have hlen : ¬ providers.length = 0 := by
    simpa [List.length_eq_zero] using hprov
  have hhead : (processJob cfg providers instantQuery (.error e)
      completeOutcome durationsMS unmarshalAnalysis completionOrder job now
      completedAt store).head?
      = some (processJobRecord cfg providers instantQuery (.error e)
          completeOutcome durationsMS unmarshalAnalysis completionOrder job
          now completedAt) := by
    unfold processJob
    rw [analysisStoreAdd_eq_take]
    obtain ⟨k, hk⟩ := Nat.exists_eq_add_of_le hmax
    rw [hk, Nat.add_comm, List.take_succ_cons]
    rfl
  refine ⟨?_, ?_, ?_, ?_, ?_, ?_, ?_, ?_, hhead⟩ <;>
    · unfold processJobRecord runProviders buildLLMRequest
      dsimp only
      try rw [hmc]
      try dsimp only
      try rw [if_neg hlen]
      try dsimp only
      try rfl

theorem promptFailure_records_synthetic_entry_witness :
    c7Providers ≠ [] ∧ 1 ≤ c7Cfg.maxStoredAnalyses ∧
    ((processJobRecord c7Cfg c7Providers c7Query (.error "boom")
        (fun _ _ => Except.ok "r") (fun _ => 1) (fun _ => none) [0] c7Job 9
        11).providers
      = [{ provider := "prompt-builder", type := "internal", model := "",
           durationMS := 0, response := "", parsed := none,
           error := "marshal prompt payload: " ++ "boom" }] ∧
     (processJobRecord c7Cfg c7Providers c7Query (.error "boom")
        (fun _ _ => Except.ok "r") (fun _ => 1) (fun _ => none) [0] c7Job 9
        11).id = c7Job.id ∧
     (processJobRecord c7Cfg c7Providers c7Query (.error "boom")
        (fun _ _ => Except.ok "r") (fun _ => 1) (fun _ => none) [0] c7Job 9
        11).receivedAt = c7Job.receivedAt ∧
     (processJobRecord c7Cfg c7Providers c7Query (.error "boom")
        (fun _ _ => Except.ok "r") (fun _ => 1) (fun _ => none) [0] c7Job 9
        11).alertStatus = c7Job.payload.status ∧
     (processJobRecord c7Cfg c7Providers c7Query (.error "boom")
        (fun _ _ => Except.ok "r") (fun _ => 1) (fun _ => none) [0] c7Job 9
        11).receiver = c7Job.payload.receiver ∧
     (processJobRecord c7Cfg c7Providers c7Query (.error "boom")
        (fun _ _ => Except.ok "r") (fun _ => 1) (fun _ => none) [0] c7Job 9
        11).groupKey = c7Job.payload.groupKey ∧
     (processJobRecord c7Cfg c7Providers c7Query (.error "boom")
        (fun _ _ => Except.ok "r") (fun _ => 1) (fun _ => none) [0] c7Job 9
        11).alertSummaries = summarizeAlerts c7Job.payload.alerts ∧
     (processJobRecord c7Cfg c7Providers c7Query (.error "boom")
        (fun _ _ => Except.ok "r") (fun _ => 1) (fun _ => none) [0] c7Job 9
        11).completedAt = 11 ∧
     (processJob c7Cfg c7Providers c7Query (.error "boom")
        (fun _ _ => Except.ok "r") (fun _ => 1) (fun _ => none) [0] c7Job 9
        11 []).head?
       = some (processJobRecord c7Cfg c7Providers c7Query (.error "boom")
           (fun _ _ => Except.ok "r") (fun _ => 1) (fun _ => none) [0] c7Job
           9 11)) :=
  ⟨by decide, by decide,
   promptFailure_records_synthetic_entry c7Cfg c7Providers c7Query "boom"
     (fun _ _ => Except.ok "r") (fun _ => 1) (fun _ => none) [0] c7Job 9 11
     [] (by decide) (by decide)⟩

/-- C8: whenever the evidence backend is configured (non-blank URL, as
`loadConfig` guarantees), evidence collection produces exactly one
MetricSnapshot per configured metric query, in configuration order; a
failing query yields for its position a snapshot carrying only the
query's name, description and expression plus the error string, while
every other query's outcome is untouched — each position depends only
on its own query's result while all positions remain present. -/
theorem collectMetrics_per_query_isolation (cfg : Config)
    (instantQuery : MetricQuery → Int → Except String MetricSnapshot)
    (job : analysisJob) (now : Int)
    (hurl : ¬ trimSpace cfg.prometheusURL = "") :
    (collectMetrics cfg instantQuery job now).1.length
      = cfg.metricQueries.length ∧
    ∀ i, i < cfg.metricQueries.length →
      (∀ s, instantQuery (cfg.metricQueries.getD i default)
          (collectMetricsQueryTime job.payload now cfg.prometheusLookback)
          = .ok s →
        (collectMetrics cfg instantQuery job now).1.getD i default = s) ∧
      (∀ e, instantQuery (cfg.metricQueries.getD i default)
          (collectMetricsQueryTime job.payload now cfg.prometheusLookback)
          = .error e →
        (collectMetrics cfg instantQuery job now).1.getD i default
          = { name := (cfg.metricQueries.getD i default).name,
              description := (cfg.metricQueries.getD i default).description,
              query := (cfg.metricQueries.getD i default).query,
              resultType := "", summary := "", series := [],
              error := e }) := by
  have hfst : (collectMetrics cfg instantQuery job now).1
      = cfg.metricQueries.map (fun query =>
          match instantQuery query
            (collectMetricsQueryTime job.payload now cfg.prometheusLookback)
          with
          | .error e =>
            { name := query.name, description := query.description,
              query := query.query, resultType := "", summary := "",
              series := [], error := e }
          | .ok snapshot => snapshot) := by
    unfold collectMetrics
    rw [if_neg hurl]
  refine ⟨by rw [hfst]; exact List.length_map _ _, ?_⟩
  intro i hi
  have hget : (collectMetrics cfg instantQuery job now).1.getD i default
      = match instantQuery (cfg.metricQueries.getD i default)
          (collectMetricsQueryTime job.payload now cfg.prometheusLookback)
        with
        | .error e =>
          { name := (cfg.metricQueries.getD i default).name,
            description := (cfg.metricQueries.getD i default).description,
            query := (cfg.metricQueries.getD i default).query,
            resultType := "", summary := "", series := [], error := e }
        | .ok snapshot => snapshot := by
    rw [hfst, List.getD_eq_getElem _ _ (by simpa using hi), List.getElem_map,
      List.getD_eq_getElem _ _ hi]
  refine ⟨?_, ?_⟩
  · intro s hs
    rw [hget, hs]
  · intro e he
    rw [hget, he]

theorem collectMetrics_per_query_isolation_witness :
    ¬ trimSpace c8Cfg.prometheusURL = "" ∧
    ((collectMetrics c8Cfg c8Query c8Job 100).1.length
        = c8Cfg.metricQueries.length ∧
     ∀ i, i < c8Cfg.metricQueries.length →
       (∀ s, c8Query (c8Cfg.metricQueries.getD i default)
           (collectMetricsQueryTime c8Job.payload 100
             c8Cfg.prometheusLookback) = .ok s →
         (collectMetrics c8Cfg c8Query c8Job 100).1.getD i default = s) ∧
       (∀ e, c8Query (c8Cfg.metricQueries.getD i default)
           (collectMetricsQueryTime c8Job.payload 100
             c8Cfg.prometheusLookback) = .error e →
         (collectMetrics c8Cfg c8Query c8Job 100).1.getD i default
           = { name := (c8Cfg.metricQueries.getD i default).name,
               description :=
                 (c8Cfg.metricQueries.getD i default).description,
               query := (c8Cfg.metricQueries.getD i default).query,
               resultType := "", summary := "", series := [],
               error := e })) :=
  ⟨by decide, collectMetrics_per_query_isolation c8Cfg c8Query c8Job 100
    (by decide)⟩

/-- C9: evaluation of the worker-loop model at a failing input. The
Go worker loop contains no `recover` anywhere in the repository, so a
panic-equivalent failure while processing the first of two queued
jobs terminates the loop: no record is stored and the second job is
left unprocessed — the worker does NOT recover and continue, contrary
to the claim (and to §4.2 of the spec, which the code fails to
implement). Second conjunct: without a panic the same loop processes
both jobs and stores both records. -/
theorem worker_panic_terminates_loop :
    worker (fun j => j.id == "j1")
      (fun j store => { (default : analysisRecord) with id := j.id } :: store)
      [{ id := "j1", receivedAt := 0, payload := c6Payload },
       { id := "j2", receivedAt := 0, payload := c6Payload }] []
      = ([], [{ id := "j2", receivedAt := 0, payload := c6Payload }]) ∧
    worker (fun _ => false)
      (fun j store => { (default : analysisRecord) with id := j.id } :: store)
      [{ id := "j1", receivedAt := 0, payload := c6Payload },
       { id := "j2", receivedAt := 0, payload := c6Payload }] []
      = ([{ (default : analysisRecord) with id := "j2" },
          { (default : analysisRecord) with id := "j1" }], []) := by decide

/-- C10: `collectMetrics` always returns a nil Go error — per-query
failures are folded into the snapshots — so the stored record's
top-level Error field is never set by enrichment; and a
blank/whitespace Prometheus URL yields a nil snapshot list, so the
record's metrics list is empty rather than one error snapshot per
configured query. -/
theorem collectMetrics_never_sets_record_error (cfg : Config)
    (providers : List LLMProvider)
    (instantQuery : MetricQuery → Int → Except String MetricSnapshot)
    (marshalPayload : Except String String)
    (completeOutcome : Nat → LLMRequest → Except String String)
    (durationsMS : Nat → Int)
    (unmarshalAnalysis : String → Option StructuredAnalysis)
    (completionOrder : List Nat) (job : analysisJob)
    (now completedAt : Int) :
    (collectMetrics cfg instantQuery job now).2 = none ∧
    (processJobRecord cfg providers instantQuery marshalPayload
        completeOutcome durationsMS unmarshalAnalysis completionOrder job
        now completedAt).error = "" ∧
    (trimSpace cfg.prometheusURL = "" →
      (collectMetrics cfg instantQuery job now).1 = [] ∧
      (processJobRecord cfg providers instantQuery marshalPayload
          completeOutcome durationsMS unmarshalAnalysis completionOrder job
          now completedAt).metrics = []) := by
  have hmc := collectMetrics_snd_eq_none cfg instantQuery job now
  refine ⟨hmc, ?_, ?_⟩
  · unfold processJobRecord
    dsimp only
    rw [hmc]
    dsimp only
    by_cases hp : providers.length = 0 <;> simp [hp]
  · intro hurl
    have h1 : (collectMetrics cfg instantQuery job now).1 = [] := by
      unfold collectMetrics
      rw [if_pos hurl]
    refine ⟨h1, ?_⟩
    unfold processJobRecord
    dsimp only
    rw [hmc]
    dsimp only
    by_cases hp : providers.length = 0 <;> simp [hp, h1]

theorem collectMetrics_never_sets_record_error_witness :
    ((collectMetrics c10Cfg c7Query c8Job 100).2 = none ∧
     (processJobRecord c10Cfg [] c7Query (Except.ok "body")
        (fun _ _ => Except.ok "r") (fun _ => 1) (fun _ => none) [] c8Job 100
        101).error = "" ∧
     (trimSpace c10Cfg.prometheusURL = "" →
       (collectMetrics c10Cfg c7Query c8Job 100).1 = [] ∧
       (processJobRecord c10Cfg [] c7Query (Except.ok "body")
          (fun _ _ => Except.ok "r") (fun _ => 1) (fun _ => none) [] c8Job
          100 101).metrics = [])) ∧
    trimSpace c10Cfg.prometheusURL = "" :=
  ⟨collectMetrics_never_sets_record_error c10Cfg [] c7Query
    (Except.ok "body") (fun _ _ => Except.ok "r") (fun _ => 1)
    (fun _ => none) [] c8Job 100 101, by decide⟩
